import Mathlib

/-!
Verification of the Bedrock inference-profile management service (src/app):
configuration, resolver (get_model_arn), name sanitizer
(sanitize_profile_name), request validator (validate_request_data), the
DynamoDB-backed profile registry (create/get/delete), the conversation proxy
(use) and the HTTP dispatch (handle_team_profile). External AWS collaborators
(STS caller identity, Bedrock control plane and runtime, DynamoDB) are passed
in as explicit parameters; DynamoDB is a list of rows keyed by the composite
(team_tag, model_type_version) key.
-/

/-- Static configuration, as produced by load_model_config in utils.py:
the model registry keyed by (model_type, version), per-team default pairs,
and the validation enumerations. -/
structure Config where
  MODEL_REGISTRY : List ((String × String) × String)
  TEAM_DEFAULT_MODELS : List (String × (String × String))
  VALID_TEAMS : List String
  VALID_MODEL_TYPES : List String
  VALID_VERSIONS : List String
  VALID_ACTIONS : List String
  DEFAULT_VERSION : String
  AWS_REGION : String
  DYNAMODB_TABLE : String

/-- Python dict access d.get(k): the first binding of the key, if any. -/
def alist_get {α β : Type} [DecidableEq α] (l : List (α × β)) (k : α) : Option β :=
  match l with
  | [] => none
  | (k2, v) :: rest => if k2 = k then some v else alist_get rest k

/-- The character class [0-9a-zA-Z _-] kept by re.sub in sanitize_profile_name. -/
def allowed_char (c : Char) : Bool :=
  c.isAlphanum || c = ' ' || c = '_' || c = '-'

/-- Python rstrip with the two characters underscore and hyphen: drop every
trailing underscore or hyphen. -/
def rstrip_seps (l : List Char) : List Char :=
  (l.reverse.dropWhile (fun c => c = '_' || c = '-')).reverse

/-- sanitize_profile_name (utils.py): replace each dot of version with an
underscore, join team_tag, model_type and the sanitized version with
underscores, replace every character outside [0-9a-zA-Z _-] with an
underscore, and strip trailing underscores and hyphens. -/
def sanitize_profile_name (team_tag model_type version : String) : String :=
  let sanitized_version := String.mk (version.data.map (fun c => if c = '.' then '_' else c))
  let profile_name := team_tag ++ "_" ++ model_type ++ "_" ++ sanitized_version
  let sanitized_name := String.mk (profile_name.data.map (fun c => if allowed_char c then c else '_'))
  String.mk (rstrip_seps sanitized_name.data)

/-- The fixed ARN template of get_model_arn, interpolating the configured
region, the caller account id and the provider model id. -/
def inference_profile_arn (cfg : Config) (account_id model_id : String) : String :=
  "arn:aws:bedrock:" ++ cfg.AWS_REGION ++ ":" ++ account_id ++ ":inference-profile/" ++ model_id

/-- The ValueError message raised by get_model_arn, naming the unresolved
model_type and version. -/
def model_not_found_msg (model_type version : String) : String :=
  "Model ARN not found for model_type: " ++ model_type ++ ", version: " ++ version

/-- get_model_arn (utils.py): look the (model_type, version) pair up in the
registry; on a miss fall back to the default pair of a truthy team_tag, and
otherwise raise. The STS caller-identity lookup performed on every call is
passed in as account_id. -/
def get_model_arn (cfg : Config) (account_id : String) (model_type version : String)
    (team_tag : Option String) : Except String (String × String) :=
  match alist_get cfg.MODEL_REGISTRY (model_type, version) with
  | some model_id => .ok (model_id, inference_profile_arn cfg account_id model_id)
  | none =>
    match team_tag with
    | some t =>
      if t ≠ "" then
        match alist_get cfg.TEAM_DEFAULT_MODELS t with
        | some default_key =>
          match alist_get cfg.MODEL_REGISTRY default_key with
          | some model_id => .ok (model_id, inference_profile_arn cfg account_id model_id)
          | none => .error (model_not_found_msg model_type version)
        | none => .error (model_not_found_msg model_type version)
      else .error (model_not_found_msg model_type version)
    | none => .error (model_not_found_msg model_type version)

/-- The validator message for a missing or invalid team_tag. -/
def team_err_msg (cfg : Config) : String :=
  "Invalid team_tag. Must be one of: " ++ String.intercalate ", " cfg.VALID_TEAMS

/-- The validator message for a missing or invalid action. -/
def action_err_msg (cfg : Config) : String :=
  "Invalid action. Must be one of: " ++ String.intercalate ", " cfg.VALID_ACTIONS

/-- validate_request_data (utils.py). Required fields are tested for Python
truthiness, so a missing key and an empty string fail alike; version falls
back to the configured default only when its key is absent; user_message is
required only for the use action. -/
def validate_request_data (cfg : Config) (data : List (String × String)) :
    Except String (String × String × String × String × Option String) :=
  if data.isEmpty then .error "No data provided"
  else
    match alist_get data "team_tag" with
    | none => .error (team_err_msg cfg)
    | some team_tag =>
      if team_tag = "" ∨ team_tag ∉ cfg.VALID_TEAMS then .error (team_err_msg cfg)
      else
        match alist_get data "action" with
        | none => .error (action_err_msg cfg)
        | some action =>
          if action = "" ∨ action ∉ cfg.VALID_ACTIONS then .error (action_err_msg cfg)
          else
            match alist_get data "model_type" with
            | none => .error "model_type is required"
            | some model_type =>
              if model_type = "" then .error "model_type is required"
              else
                let version := (alist_get data "version").getD cfg.DEFAULT_VERSION
                let user_message := alist_get data "user_message"
                if action = "use" ∧ user_message.getD "" = "" then
                  .error "user_message is required for the use action"
                else .ok (team_tag, action, model_type, version, user_message)

/-- A row of the DynamoDB profile table, as written by
store_profile_in_dynamodb (create_profile.py). -/
structure ProfileItem where
  team_tag : String
  model_type_version : String
  model_type : String
  version : String
  profile_id : String
  model_arn : String
deriving DecidableEq

/-- The DynamoDB table: its rows, newest first. -/
abbrev DB := List ProfileItem

/-- DynamoDB get_item by the composite key (partition key team_tag, sort key
model_type_version). -/
def db_lookup (db : DB) (team_tag mtv : String) : Option ProfileItem :=
  db.find? (fun it => decide (it.team_tag = team_tag ∧ it.model_type_version = mtv))

/-- DynamoDB delete_item by the composite key. -/
def db_delete (db : DB) (team_tag mtv : String) : DB :=
  db.filter (fun it => !decide (it.team_tag = team_tag ∧ it.model_type_version = mtv))

/-- The ValueError message raised on a failed conditional write. -/
def conflict_msg (team_tag : String) : String :=
  "Profile already exists for team " ++ team_tag

/-- store_profile_in_dynamodb (create_profile.py): a conditional put_item,
ConditionExpression requiring that no item with the composite key exists;
a failed condition raises the conflict ValueError and the table is
unchanged. The fifth argument fills the model_arn column. -/
def store_profile_in_dynamodb (db : DB)
    (team_tag model_type version profile_arn model_arn : String) :
    Except String Unit × DB :=
  let model_type_version := model_type ++ "#" ++ version
  let item : ProfileItem :=
    ⟨team_tag, model_type_version, model_type, version, profile_arn, model_arn⟩
  match db_lookup db team_tag model_type_version with
  | some _ => (.error (conflict_msg team_tag), db)
  | none => (.ok (), item :: db)

/-- The Bedrock CreateInferenceProfile reply, with the field the app reads. -/
structure CreateInferenceProfileResponse where
  inferenceProfileArn : String
  status : String
deriving DecidableEq

/-- handle_create_profile (create_profile.py): resolve the model, sanitize the
profile name, provision the remote inference profile (remote_create, given
the profile name and the copyFrom source model_arn), then store the row —
the call site passes the raw model_id, not the resolved ARN, into the
model_arn column. On any error the table is unchanged. -/
def handle_create_profile (cfg : Config) (account_id : String) (db : DB)
    (team_tag model_type version : String)
    (remote_create : String → String → Except String CreateInferenceProfileResponse) :
    Except String CreateInferenceProfileResponse × DB :=
  match get_model_arn cfg account_id model_type version (some team_tag) with
  | .error e => (.error e, db)
  | .ok (model_id, model_arn) =>
    let profile_name := sanitize_profile_name team_tag model_type version
    match remote_create profile_name model_arn with
    | .error e => (.error e, db)
    | .ok response =>
      match store_profile_in_dynamodb db team_tag model_type version
          response.inferenceProfileArn model_id with
      | (.error e, db2) => (.error e, db2)
      | (.ok _, db2) => (.ok response, db2)

/-- The dict handle_get_profile (get_profile.py) builds from a row. -/
structure Profile where
  team_tag : String
  model_type : String
  version : String
  profile_id : String
  model_arn : String
deriving DecidableEq

/-- handle_get_profile (get_profile.py): read the row by composite key;
absence is returned as none, not raised. -/
def handle_get_profile (db : DB) (team_tag model_type version : String) : Option Profile :=
  match db_lookup db team_tag (model_type ++ "#" ++ version) with
  | none => none
  | some it => some ⟨it.team_tag, it.model_type, it.version, it.profile_id, it.model_arn⟩

/-- The body handle_delete_profile returns on success. -/
structure DeleteResponse where
  deleted : Bool
deriving DecidableEq

/-- The ValueError message handle_delete_profile raises for an absent key. -/
def delete_not_found_msg (team_tag : String) : String :=
  "No profile found for team " ++ team_tag

/-- handle_delete_profile (delete_profile.py): read the row (ValueError when
absent), ask Bedrock to delete the remote profile by its profile_id
(remote_delete; when that fails the local row is kept), then delete the
local row by composite key. -/
def handle_delete_profile (db : DB) (team_tag model_type version : String)
    (remote_delete : String → Except String Unit) :
    Except String DeleteResponse × DB :=
  let mtv := model_type ++ "#" ++ version
  match db_lookup db team_tag mtv with
  | none => (.error (delete_not_found_msg team_tag), db)
  | some item =>
    match remote_delete item.profile_id with
    | .error e => (.error e, db)
    | .ok _ => (.ok ⟨true⟩, db_delete db team_tag mtv)

/-- JSON values, for the invoke_model request body and the parsed reply. -/
inductive JValue where
  | str : String → JValue
  | arr : List JValue → JValue
  | obj : List (String × JValue) → JValue

/-- Field access on a JSON object. -/
def jget (j : JValue) (k : String) : Option JValue :=
  match j with
  | .obj fields => alist_get fields k
  | _ => none

/-- Index access on a JSON array. -/
def jat (j : JValue) (i : Nat) : Option JValue :=
  match j with
  | .arr xs => xs.get? i
  | _ => none

/-- use_profile.py: the invoke_model request body — a single user message and
nothing else; in particular no system entry. -/
def invoke_body (user_message : String) : JValue :=
  .obj [("messages", .arr [.obj [("role", .str "user"),
    ("content", .arr [.obj [("text", .str user_message)]])]])]

/-- The fixed generic assistant instruction use_profile.py substitutes for an
absent system_prompt. -/
def default_system_prompt : String :=
  "You are a personal AI assistant, try to provide most accurate answers to the user query"

/-- The body handle_use_profile returns on success. -/
structure UseResponse where
  conversation_response : JValue
  profile_used : String

/-- The ValueError message handle_use_profile raises for an absent profile. -/
def use_not_found_msg (team_tag model_type : String) : String :=
  "No profile found for team " ++ team_tag ++ " with model " ++ model_type

/-- handle_use_profile (use_profile.py): look the profile up, then call
invoke_model on its profile_id with the fixed single-user-message body. The
defaulted system_prompt local is computed but never used, and the whole
parsed reply body becomes conversation_response. -/
def handle_use_profile (db : DB) (team_tag model_type version user_message : String)
    (system_prompt : Option String)
    (invoke_model : String → JValue → Except String JValue) :
    Except String UseResponse :=
  match handle_get_profile db team_tag model_type version with
  | none => .error (use_not_found_msg team_tag model_type)
  | some profile =>
    let _effective_system_prompt :=
      if system_prompt.getD "" = "" then default_system_prompt else system_prompt.getD ""
    match invoke_model profile.profile_id (invoke_body user_message) with
    | .error e => .error e
    | .ok response_text => .ok ⟨response_text, profile.profile_id⟩

/-- First text segment of a Converse-shaped structured reply:
output.message.content[0].text — the field use_profile-old.py extracts and
the spec's Conversation Proxy contract describes. -/
def first_text_segment (reply : JValue) : Option JValue := do
  let out ← jget reply "output"
  let msg ← jget out "message"
  let content ← jget msg "content"
  let c0 ← jat content 0
  jget c0 "text"

/-- The action-specific data payload of a success response (app.py). -/
inductive Payload where
  | str : String → Payload
  | profile : Profile → Payload
  | deleted : DeleteResponse → Payload
  | use : UseResponse → Payload

/-- An API response: ok carries the HTTP 200 success data payload
(create_success_response; processing_time elided), err the error message
(create_error_response; the 400/404/500 code mapping is not modelled). -/
inductive ApiResult where
  | ok : Payload → ApiResult
  | err : String → ApiResult

/-- handle_team_profile (app.py): parse-validate-dispatch. The create branch
returns only the inferenceProfileArn field of the handler output — a bare
string — as the data payload; the final branch mirrors the unbound result
variable a configured action outside the four handled ones would hit. The
use branch's validation guarantees user_message is present and non-empty. -/
def handle_team_profile (cfg : Config) (account_id : String) (db : DB)
    (data : List (String × String))
    (remote_create : String → String → Except String CreateInferenceProfileResponse)
    (remote_delete : String → Except String Unit)
    (invoke_model : String → JValue → Except String JValue) : ApiResult × DB :=
  match validate_request_data cfg data with
  | .error e => (.err e, db)
  | .ok (team_tag, action, model_type, version, user_message) =>
    if action = "create" then
      match handle_create_profile cfg account_id db team_tag model_type version remote_create with
      | (.error e, db2) => (.err e, db2)
      | (.ok output, db2) => (.ok (.str output.inferenceProfileArn), db2)
    else if action = "get" then
      match handle_get_profile db team_tag model_type version with
      | none => (.err ("No profile found for team " ++ team_tag), db)
      | some p => (.ok (.profile p), db)
    else if action = "delete" then
      match handle_delete_profile db team_tag model_type version remote_delete with
      | (.error e, db2) => (.err e, db2)
      | (.ok r, db2) => (.ok (.deleted r), db2)
    else if action = "use" then
      let system_prompt := alist_get data "system_prompt"
      match handle_use_profile db team_tag model_type version (user_message.getD "")
          system_prompt invoke_model with
      | .error e => (.err e, db)
      | .ok r => (.ok (.use r), db)
    else
      (.err "name result is not defined", db)

/-- A separator character of the external resource-naming constraint. -/
def aws_name_sep (c : Char) : Bool := c = ' ' || c = '_' || c = '-'

/-- Tail recogniser for the external constraint, prev_alnum recording whether
the previous character was alphanumeric: a separator is admitted only
directly after an alphanumeric character. -/
def aws_name_run (prev_alnum : Bool) : List Char → Bool
  | [] => true
  | c :: cs =>
    if c.isAlphanum then aws_name_run true cs
    else (prev_alnum && aws_name_sep c) && aws_name_run false cs

/-- The external resource-naming constraint of the spec, the regular
expression of one or more groups of an alphanumeric character followed by an
optional separator: equivalently, a non-empty string over the allowed class
that starts alphanumeric and never puts a separator after a separator. -/
def matches_aws_name (s : String) : Bool :=
  !s.isEmpty && aws_name_run false s.data

/-- No two table rows share the composite (team_tag, model_type_version) key. -/
def db_well_keyed (db : DB) : Prop :=
  db.Pairwise (fun a b => ¬(a.team_tag = b.team_tag ∧ a.model_type_version = b.model_type_version))

/-- Every row's sort key is the one derived from its model_type and version. -/
def db_consistent (db : DB) : Prop :=
  ∀ it ∈ db, it.model_type_version = it.model_type ++ "#" ++ it.version

/-- At most one row per (team_tag, model_type, version) triple. -/
def at_most_one_per_triple (db : DB) : Prop :=
  ∀ t m v, (db.filter
    (fun it => decide (it.team_tag = t ∧ it.model_type = m ∧ it.version = v))).length ≤ 1

/-! ## Helper lemmas -/

theorem head?_dropWhile_false {α : Type} (p : α → Bool) :
    ∀ (l : List α) (c : α), (l.dropWhile p).head? = some c → p c = false := by
  intro l
  induction l with
  | nil => intro c h; simp [List.dropWhile] at h
  | cons a as ih =>
    intro c h
    by_cases hp : p a = true
    · rw [List.dropWhile_cons_of_pos hp] at h
      exact ih c h
    · rw [List.dropWhile_cons_of_neg hp] at h
      simp only [List.head?_cons, Option.some.injEq] at h
      subst h
      simpa using hp

theorem mem_rstrip_seps {l : List Char} {c : Char} (h : c ∈ rstrip_seps l) : c ∈ l := by
  unfold rstrip_seps at h
  rw [List.mem_reverse] at h
  have := (List.dropWhile_sublist (l := l.reverse)
    (p := fun c => c = '_' || c = '-')).subset h
  exact List.mem_reverse.mp this

theorem getLast?_rstrip_seps {l : List Char} {c : Char}
    (h : (rstrip_seps l).getLast? = some c) : c ≠ '_' ∧ c ≠ '-' := by
  unfold rstrip_seps at h
  rw [List.getLast?_reverse] at h
  have := head?_dropWhile_false (fun c => c = '_' || c = '-') l.reverse c h
  simp only [Bool.or_eq_false_iff, decide_eq_false_iff_not] at this
  exact this

theorem sanitize_data_eq (team_tag model_type version : String) :
    (sanitize_profile_name team_tag model_type version).data =
      rstrip_seps (((team_tag ++ "_" ++ model_type ++ "_" ++
        String.mk (version.data.map (fun c => if c = '.' then '_' else c))).data).map
          (fun c => if allowed_char c then c else '_')) := rfl

theorem sanitize_all_allowed (team_tag model_type version : String) :
    (sanitize_profile_name team_tag model_type version).data.all allowed_char = true := by
  rw [List.all_eq_true]
  intro c hc
  rw [sanitize_data_eq] at hc
  have hc2 := mem_rstrip_seps hc
  rw [List.mem_map] at hc2
  obtain ⟨b, -, hb⟩ := hc2
  subst hb
  by_cases h : allowed_char b = true
  · rw [if_pos h]; exact h
  · rw [if_neg h]; decide

theorem sanitize_last_not_sep (team_tag model_type version : String) (c : Char)
    (h : (sanitize_profile_name team_tag model_type version).data.getLast? = some c) :
    c ≠ '_' ∧ c ≠ '-' := by
  rw [sanitize_data_eq] at h
  exact getLast?_rstrip_seps h

/-! ## C7 -/

/-- C7 counterexample: the claim that the sanitizer output always matches the
external constraint is false — on the input (team "-", model_type "a",
version "1") the output is "-_a_1", which starts with a separator. -/
theorem sanitize_profile_name_violates_aws_pattern :
    matches_aws_name (sanitize_profile_name "-" "a" "1") = false := by decide

/-- C7 (amended): for every input, the sanitizer output consists only of
characters of the allowed class [0-9a-zA-Z _-] and never ends in an
underscore or a hyphen; the full constraint of the form one-or-more groups
of an alphanumeric with an optional separator is not guaranteed. -/
theorem sanitize_profile_name_charset_and_no_trailing_sep
    (team_tag model_type version : String) :
    (sanitize_profile_name team_tag model_type version).data.all allowed_char = true ∧
    (∀ c, (sanitize_profile_name team_tag model_type version).data.getLast? = some c →
      c ≠ '_' ∧ c ≠ '-') :=
  ⟨sanitize_all_allowed team_tag model_type version,
   fun c h => sanitize_last_not_sep team_tag model_type version c h⟩

/-! ## C8 -/

/-- C8: the sanitizer equals the described pipeline — replace dots of the
version with underscores, join with underscores, replace every character
outside [0-9a-zA-Z _-] with an underscore, strip trailing underscores and
hyphens; sanitize("team-a", "claude", "3.5") = "team-a_claude_3_5"; and the
output never ends in an underscore or a hyphen. -/
theorem sanitize_profile_name_algorithm :
    sanitize_profile_name "team-a" "claude" "3.5" = "team-a_claude_3_5" ∧
    (∀ team_tag model_type version : String,
      sanitize_profile_name team_tag model_type version =
        String.mk (rstrip_seps (((team_tag ++ "_" ++ model_type ++ "_" ++
          String.mk (version.data.map (fun c => if c = '.' then '_' else c))).data).map
            (fun c => if allowed_char c then c else '_')))) ∧
    (∀ team_tag model_type version c,
      (sanitize_profile_name team_tag model_type version).data.getLast? = some c →
        c ≠ '_' ∧ c ≠ '-') :=
  ⟨by decide, fun _ _ _ => rfl, fun t m v c h => sanitize_last_not_sep t m v c h⟩

/-! ## C3 -/

theorem db_lookup_none_iff (db : DB) (team_tag mtv : String) :
    db_lookup db team_tag mtv = none ↔
      ∀ it ∈ db, ¬(it.team_tag = team_tag ∧ it.model_type_version = mtv) := by
  unfold db_lookup
  rw [List.find?_eq_none]
  constructor
  · intro h it hit
    have := h it hit
    simpa using this
  · intro h it hit
    simpa using h it hit

theorem well_keyed_insert (db : DB) (item : ProfileItem)
    (h : db_lookup db item.team_tag item.model_type_version = none)
    (hw : db_well_keyed db) : db_well_keyed (item :: db) := by
  unfold db_well_keyed
  rw [List.pairwise_cons]
  refine ⟨fun b hb hab => ?_, hw⟩
  have := (db_lookup_none_iff db item.team_tag item.model_type_version).mp h b hb
  exact this ⟨hab.1.symm, hab.2.symm⟩

theorem at_most_one_of_well_keyed :
    ∀ db : DB, db_well_keyed db → db_consistent db → at_most_one_per_triple db := by
  intro db
  induction db with
  | nil => intro _ _ t m v; simp [at_most_one_per_triple]
  | cons it rest ih =>
    intro hw hc t m v
    have hw2 := List.pairwise_cons.mp hw
    have hcrest : db_consistent rest := fun x hx => hc x (List.mem_cons_of_mem _ hx)
    have hit := hc it (List.mem_cons_self _ _)
    rw [List.filter_cons]
    by_cases hp : it.team_tag = t ∧ it.model_type = m ∧ it.version = v
    · have hnil : rest.filter
          (fun b => decide (b.team_tag = t ∧ b.model_type = m ∧ b.version = v)) = [] := by
        rw [List.filter_eq_nil_iff]
        intro b hb hpb
        rw [decide_eq_true_eq] at hpb
        have hbrow := hcrest b hb
        apply hw2.1 b hb
        refine ⟨hp.1.trans hpb.1.symm, ?_⟩
        rw [hit, hbrow, hp.2.1, hp.2.2, hpb.2.1, hpb.2.2]
      simp only [decide_eq_true_eq, if_pos hp, hnil]
      simp
    · simp only [decide_eq_true_eq, if_neg hp]
      exact ih hw2.2 hcrest t m v

/-- C3: the conditional write of store_profile_in_dynamodb — a create for an
absent composite key succeeds and prepends exactly the one new row; a create
for a present key fails with the conflict ValueError and leaves the table
unchanged; the write preserves key uniqueness and sort-key consistency, so
at most one row ever exists per (team_tag, model_type, version) triple. -/
theorem store_profile_conditional_write (db : DB)
    (team_tag model_type version profile_arn model_arn : String) :
    (db_lookup db team_tag (model_type ++ "#" ++ version) = none →
      store_profile_in_dynamodb db team_tag model_type version profile_arn model_arn =
        (.ok (), ⟨team_tag, model_type ++ "#" ++ version, model_type, version,
          profile_arn, model_arn⟩ :: db)) ∧
    (∀ it, db_lookup db team_tag (model_type ++ "#" ++ version) = some it →
      store_profile_in_dynamodb db team_tag model_type version profile_arn model_arn =
        (.error (conflict_msg team_tag), db)) ∧
    (db_well_keyed db →
      db_well_keyed
        (store_profile_in_dynamodb db team_tag model_type version profile_arn model_arn).2) ∧
    (db_well_keyed db → db_consistent db →
      db_consistent
        (store_profile_in_dynamodb db team_tag model_type version profile_arn model_arn).2 ∧
      at_most_one_per_triple
        (store_profile_in_dynamodb db team_tag model_type version profile_arn model_arn).2) := by
  refine ⟨?_, ?_, ?_, ?_⟩
  · intro h
    simp only [store_profile_in_dynamodb, h]
  · intro it h
    simp only [store_profile_in_dynamodb, h]
  · intro hw
    cases h : db_lookup db team_tag (model_type ++ "#" ++ version) with
    | none =>
      simp only [store_profile_in_dynamodb, h]
      exact well_keyed_insert db
        ⟨team_tag, model_type ++ "#" ++ version, model_type, version,
          profile_arn, model_arn⟩ h hw
    | some it =>
      simp only [store_profile_in_dynamodb, h]
      exact hw
  · intro hw hc
    cases h : db_lookup db team_tag (model_type ++ "#" ++ version) with
    | none =>
      have hc2 : db_consistent
          (⟨team_tag, model_type ++ "#" ++ version, model_type, version,
            profile_arn, model_arn⟩ :: db) := by
        intro x hx
        rcases List.mem_cons.mp hx with h1 | h1
        · subst h1; rfl
        · exact hc x h1
      simp only [store_profile_in_dynamodb, h]
      refine ⟨hc2, at_most_one_of_well_keyed _ ?_ hc2⟩
      exact well_keyed_insert db
        ⟨team_tag, model_type ++ "#" ++ version, model_type, version,
          profile_arn, model_arn⟩ h hw
    | some it =>
      simp only [store_profile_in_dynamodb, h]
      exact ⟨hc, at_most_one_of_well_keyed _ hw hc⟩

/-! ## C4 -/

theorem db_lookup_after_delete (db : DB) (team_tag mtv : String) :
    db_lookup (db_delete db team_tag mtv) team_tag mtv = none := by
  unfold db_lookup db_delete
  rw [List.find?_eq_none]
  intro x hx
  rw [List.mem_filter] at hx
  have h2 := hx.2
  simp only [Bool.not_eq_true', decide_eq_false_iff_not] at h2
  simpa using h2

/-- C4: handle_delete_profile — an absent key fails with the NotFound
ValueError and the table is unchanged; when the key is present the remote
deprovisioning is requested first and a remote failure aborts with the local
row still kept; only after remote success is the local row removed, so a
subsequent get on the key finds nothing. -/
theorem handle_delete_profile_two_phase (db : DB)
    (team_tag model_type version : String)
    (remote_delete : String → Except String Unit) :
    (db_lookup db team_tag (model_type ++ "#" ++ version) = none →
      handle_delete_profile db team_tag model_type version remote_delete =
        (.error (delete_not_found_msg team_tag), db)) ∧
    (∀ item e, db_lookup db team_tag (model_type ++ "#" ++ version) = some item →
      remote_delete item.profile_id = .error e →
      handle_delete_profile db team_tag model_type version remote_delete =
        (.error e, db)) ∧
    (∀ item, db_lookup db team_tag (model_type ++ "#" ++ version) = some item →
      remote_delete item.profile_id = .ok () →
      handle_delete_profile db team_tag model_type version remote_delete =
        (.ok ⟨true⟩, db_delete db team_tag (model_type ++ "#" ++ version)) ∧
      handle_get_profile (db_delete db team_tag (model_type ++ "#" ++ version))
        team_tag model_type version = none) := by
  refine ⟨?_, ?_, ?_⟩
  · intro h
    simp only [handle_delete_profile, h]
  · intro item e h hr
    simp only [handle_delete_profile, h, hr]
  · intro item h hr
    refine ⟨by simp only [handle_delete_profile, h, hr], ?_⟩
    simp only [handle_get_profile, db_lookup_after_delete]

/-! ## Concrete example environment -/

/-- A one-model configuration used for concrete runs. -/
def cfg_ex : Config :=
  ⟨[(("claude", "3.5"), "anthropic.claude-v3-5")], [], ["teama"], ["claude"], ["3.5"],
    ["create", "get", "delete", "use"], "3.5", "us-east-1", "bedrock-profiles"⟩

/-- The caller account id of the concrete runs. -/
def acct_ex : String := "123456789012"

/-- The remote inference-profile identifier the concrete provisioning call
returns. -/
def profile_arn_ex : String :=
  "arn:aws:bedrock:us-east-1:123456789012:application-inference-profile/abc"

/-- The ARN the resolver builds in the concrete configuration. -/
def resolved_arn_ex : String :=
  "arn:aws:bedrock:us-east-1:123456789012:inference-profile/anthropic.claude-v3-5"

/-- A provisioning collaborator that always succeeds. -/
def remote_create_ex : String → String → Except String CreateInferenceProfileResponse :=
  fun _ _ => .ok ⟨profile_arn_ex, "ACTIVE"⟩

/-- The row the concrete create run persists. -/
def item_ex : ProfileItem :=
  ⟨"teama", "claude#3.5", "claude", "3.5", profile_arn_ex, "anthropic.claude-v3-5"⟩

/-! ## C2 -/

theorem db_lookup_cons_self (item : ProfileItem) (db : DB) :
    db_lookup (item :: db) item.team_tag item.model_type_version = some item := by
  unfold db_lookup
  rw [List.find?_cons_of_pos]
  simp

/-- C2 counterexample: in a concrete successful create, the persisted row's
model_arn column holds the raw provider model id, which differs from the
fully-qualified ARN the resolver produced for the same call. -/
theorem create_persists_model_id_not_resolved_arn :
    (handle_create_profile cfg_ex acct_ex [] "teama" "claude" "3.5" remote_create_ex).2 =
      [item_ex] ∧
    get_model_arn cfg_ex acct_ex "claude" "3.5" (some "teama") =
      .ok ("anthropic.claude-v3-5", resolved_arn_ex) ∧
    item_ex.model_arn ≠ resolved_arn_ex :=
  ⟨rfl, rfl, by decide⟩

/-- C2 (amended): every successful create persists exactly one new row, whose
model_arn column equals the raw provider model id returned by the resolver
(not the fully-qualified ARN), and a subsequent get on the same key returns
a record with field values identical to those persisted. -/
theorem create_roundtrip_with_model_id (cfg : Config) (account_id : String) (db : DB)
    (team_tag model_type version : String)
    (remote_create : String → String → Except String CreateInferenceProfileResponse)
    (model_id arn : String) (resp : CreateInferenceProfileResponse) (db2 : DB)
    (h1 : get_model_arn cfg account_id model_type version (some team_tag) =
      .ok (model_id, arn))
    (h2 : handle_create_profile cfg account_id db team_tag model_type version remote_create =
      (.ok resp, db2)) :
    db2 = ⟨team_tag, model_type ++ "#" ++ version, model_type, version,
      resp.inferenceProfileArn, model_id⟩ :: db ∧
    handle_get_profile db2 team_tag model_type version =
      some ⟨team_tag, model_type, version, resp.inferenceProfileArn, model_id⟩ := by
  simp only [handle_create_profile, h1] at h2
  cases hrc : remote_create (sanitize_profile_name team_tag model_type version) arn with
  | error e =>
    rw [hrc] at h2
    simp at h2
  | ok response =>
    rw [hrc] at h2
    cases hdl : db_lookup db team_tag (model_type ++ "#" ++ version) with
    | some it =>
      simp only [store_profile_in_dynamodb, hdl] at h2
      simp at h2
    | none =>
      simp only [store_profile_in_dynamodb, hdl] at h2
      rw [Prod.mk.injEq] at h2
      obtain ⟨ha, hb⟩ := h2
      rw [Except.ok.injEq] at ha
      subst ha
      subst hb
      refine ⟨rfl, ?_⟩
      have hl : db_lookup
          ((⟨team_tag, model_type ++ "#" ++ version, model_type, version,
            response.inferenceProfileArn, model_id⟩ : ProfileItem) :: db)
          team_tag (model_type ++ "#" ++ version) = some ⟨team_tag,
            model_type ++ "#" ++ version, model_type, version,
            response.inferenceProfileArn, model_id⟩ :=
        db_lookup_cons_self _ db
      simp only [handle_get_profile, hl]

/-- C2 witness: the amended statement discharged on the concrete run. -/
theorem create_roundtrip_with_model_id_witness :
    ([item_ex] : DB) = ⟨"teama", "claude" ++ "#" ++ "3.5", "claude", "3.5",
      profile_arn_ex, "anthropic.claude-v3-5"⟩ :: ([] : DB) ∧
    handle_get_profile [item_ex] "teama" "claude" "3.5" =
      some ⟨"teama", "claude", "3.5", profile_arn_ex, "anthropic.claude-v3-5"⟩ :=
  create_roundtrip_with_model_id cfg_ex acct_ex [] "teama" "claude" "3.5" remote_create_ex
    "anthropic.claude-v3-5" resolved_arn_ex ⟨profile_arn_ex, "ACTIVE"⟩ [item_ex] rfl rfl

/-! ## C6 -/

/-- C6: get_model_arn — a (model_type, version) pair present in the registry
resolves to the registry's provider model id and the identifier built from
the fixed template over the configured region, the account id and that model
id; an absent pair with a truthy team whose default pair is present resolves
to the default pair's id and identifier; otherwise it fails with the
ValueError naming the unresolved model_type and version. -/
theorem get_model_arn_resolution (cfg : Config) (account_id model_type version : String)
    (team_tag : Option String) :
    (∀ model_id, alist_get cfg.MODEL_REGISTRY (model_type, version) = some model_id →
      get_model_arn cfg account_id model_type version team_tag =
        .ok (model_id, inference_profile_arn cfg account_id model_id)) ∧
    (∀ t default_key default_id,
      alist_get cfg.MODEL_REGISTRY (model_type, version) = none →
      team_tag = some t → t ≠ "" →
      alist_get cfg.TEAM_DEFAULT_MODELS t = some default_key →
      alist_get cfg.MODEL_REGISTRY default_key = some default_id →
      get_model_arn cfg account_id model_type version team_tag =
        .ok (default_id, inference_profile_arn cfg account_id default_id)) ∧
    (alist_get cfg.MODEL_REGISTRY (model_type, version) = none →
      (∀ t, team_tag = some t → t ≠ "" →
        ∀ default_key, alist_get cfg.TEAM_DEFAULT_MODELS t = some default_key →
          alist_get cfg.MODEL_REGISTRY default_key = none) →
      get_model_arn cfg account_id model_type version team_tag =
        .error (model_not_found_msg model_type version)) := by
  refine ⟨?_, ?_, ?_⟩
  · intro model_id h
    simp only [get_model_arn, h]
  · intro t default_key default_id h ht hne hdk hdid
    subst ht
    simp only [get_model_arn, h, hdk, hdid]
    rw [if_pos hne]
  · intro h hdef
    cases team_tag with
    | none => simp only [get_model_arn, h]
    | some t =>
      by_cases ht : t = ""
      · subst ht
        simp only [get_model_arn, h]
        rw [if_neg]
        simp
      · cases hdk : alist_get cfg.TEAM_DEFAULT_MODELS t with
        | none =>
          simp only [get_model_arn, h, hdk]
          rw [if_pos ht]
        | some default_key =>
          have hreg := hdef t rfl ht default_key hdk
          simp only [get_model_arn, h, hdk, hreg]
          rw [if_pos ht]

/-! ## Validator lemmas -/

theorem alist_get_some_ne_nil {data : List (String × String)} {k v : String}
    (h : alist_get data k = some v) : data.isEmpty = false := by
  cases data with
  | nil => simp [alist_get] at h
  | cons p rest => rfl

theorem append_ne_empty_left (s t : String) (h : s ≠ "") : s ++ t ≠ "" := by
  intro heq
  apply h
  have hd : (s ++ t).data = ([] : List Char) := by rw [heq]
  rw [String.data_append] at hd
  have h2 := List.append_eq_nil.mp hd
  cases s with
  | mk l =>
    cases h2.1
    rfl

theorem validate_ok_shape (cfg : Config) (data : List (String × String))
    (t a m ver : String) (um : Option String)
    (h : validate_request_data cfg data = .ok (t, a, m, ver, um)) :
    alist_get data "team_tag" = some t ∧ t ≠ "" ∧ t ∈ cfg.VALID_TEAMS ∧
    alist_get data "action" = some a ∧ a ≠ "" ∧ a ∈ cfg.VALID_ACTIONS ∧
    alist_get data "model_type" = some m ∧ m ≠ "" ∧
    ver = (alist_get data "version").getD cfg.DEFAULT_VERSION ∧
    um = alist_get data "user_message" ∧
    (a = "use" → um.getD "" ≠ "") := by
  simp only [validate_request_data] at h
  split at h
  · exact Except.noConfusion h
  next hemp =>
    split at h
    · exact Except.noConfusion h
    next team_tag htt =>
      split at h
      · exact Except.noConfusion h
      next hteam =>
        rw [not_or] at hteam
        split at h
        · exact Except.noConfusion h
        next action hact =>
          split at h
          · exact Except.noConfusion h
          next haction =>
            rw [not_or] at haction
            split at h
            · exact Except.noConfusion h
            next model_type hmt =>
              split at h
              · exact Except.noConfusion h
              next hmodel =>
                split at h
                · exact Except.noConfusion h
                next huse =>
                  rw [Except.ok.injEq] at h
                  simp only [Prod.mk.injEq] at h
                  obtain ⟨h1, h2, h3, h4, h5⟩ := h
                  subst h1
                  subst h2
                  subst h3
                  subst h4
                  subst h5
                  refine ⟨htt, hteam.1, not_not.mp hteam.2, hact, haction.1,
                    not_not.mp haction.2, hmt, hmodel, rfl, rfl, ?_⟩
                  intro ha
                  intro hu
                  exact huse ⟨ha, hu⟩

theorem validate_ok_iff (cfg : Config) (data : List (String × String)) :
    (∃ out, validate_request_data cfg data = .ok out) ↔
      ((∃ t, alist_get data "team_tag" = some t ∧ t ≠ "" ∧ t ∈ cfg.VALID_TEAMS) ∧
       (∃ a, alist_get data "action" = some a ∧ a ≠ "" ∧ a ∈ cfg.VALID_ACTIONS) ∧
       (∃ m, alist_get data "model_type" = some m ∧ m ≠ "") ∧
       (alist_get data "action" = some "use" →
         ∃ u, alist_get data "user_message" = some u ∧ u ≠ "")) := by
  constructor
  · rintro ⟨⟨t, a, m, ver, um⟩, hout⟩
    obtain ⟨htt, htne, htmem, hat, hane, hamem, hmt, hmne, hver, hum, huse⟩ :=
      validate_ok_shape cfg data t a m ver um hout
    refine ⟨⟨t, htt, htne, htmem⟩, ⟨a, hat, hane, hamem⟩, ⟨m, hmt, hmne⟩, ?_⟩
    intro hactuse
    have ha : a = "use" := by
      have h2 := hat.symm.trans hactuse
      exact Option.some.inj h2
    have hgd := huse ha
    cases hum2 : alist_get data "user_message" with
    | none =>
      rw [hum2] at hum
      subst hum
      exact absurd rfl hgd
    | some u =>
      rw [hum2] at hum
      subst hum
      exact ⟨u, rfl, hgd⟩
  · rintro ⟨⟨t, htt, htne, htmem⟩, ⟨a, hat, hane, hamem⟩, ⟨m, hmt, hmne⟩, huse⟩
    have hemp := alist_get_some_ne_nil htt
    refine ⟨(t, a, m, (alist_get data "version").getD cfg.DEFAULT_VERSION,
      alist_get data "user_message"), ?_⟩
    have hno : ¬(a = "use" ∧ (alist_get data "user_message").getD "" = "") := by
      rintro ⟨ha, hgd⟩
      subst ha
      obtain ⟨u, hu, hune⟩ := huse hat
      rw [hu] at hgd
      exact hune hgd
    simp only [validate_request_data, hemp, Bool.false_eq_true, if_false, htt, hat, hmt]
    rw [if_neg (not_or.mpr ⟨htne, not_not.mpr htmem⟩)]
    rw [if_neg (not_or.mpr ⟨hane, not_not.mpr hamem⟩)]
    rw [if_neg hmne]
    rw [if_neg hno]

theorem validate_error_nonempty (cfg : Config) (data : List (String × String))
    (e : String) (h : validate_request_data cfg data = .error e) : e ≠ "" := by
  simp only [validate_request_data] at h
  split at h
  · rw [Except.error.injEq] at h
    subst h
    decide
  next hemp =>
    split at h
    · rw [Except.error.injEq] at h
      subst h
      exact append_ne_empty_left _ _ (by decide)
    next team_tag htt =>
      split at h
      · rw [Except.error.injEq] at h
        subst h
        exact append_ne_empty_left _ _ (by decide)
      next hteam =>
        split at h
        · rw [Except.error.injEq] at h
          subst h
          exact append_ne_empty_left _ _ (by decide)
        next action hact =>
          split at h
          · rw [Except.error.injEq] at h
            subst h
            exact append_ne_empty_left _ _ (by decide)
          next haction =>
            split at h
            · rw [Except.error.injEq] at h
              subst h
              decide
            next model_type hmt =>
              split at h
              · rw [Except.error.injEq] at h
                subst h
                decide
              next hmodel =>
                split at h
                · rw [Except.error.injEq] at h
                  subst h
                  decide
                next huse => exact Except.noConfusion h

/-! ## C9 -/

/-- C9: validate_request_data succeeds if and only if team_tag is a truthy
member of the configured valid-teams set, action a truthy member of the
configured valid actions, model_type is supplied (truthy, with no
enumeration check), and user_message is supplied whenever the action is use;
a success returns the looked-up fields, with version defaulted to the
configured default; every violation fails with a non-empty human-readable
message. -/
theorem validate_request_data_spec (cfg : Config) (data : List (String × String)) :
    ((∃ out, validate_request_data cfg data = .ok out) ↔
      ((∃ t, alist_get data "team_tag" = some t ∧ t ≠ "" ∧ t ∈ cfg.VALID_TEAMS) ∧
       (∃ a, alist_get data "action" = some a ∧ a ≠ "" ∧ a ∈ cfg.VALID_ACTIONS) ∧
       (∃ m, alist_get data "model_type" = some m ∧ m ≠ "") ∧
       (alist_get data "action" = some "use" →
         ∃ u, alist_get data "user_message" = some u ∧ u ≠ ""))) ∧
    (∀ t a m ver um, validate_request_data cfg data = .ok (t, a, m, ver, um) →
      alist_get data "team_tag" = some t ∧ t ∈ cfg.VALID_TEAMS ∧
      alist_get data "action" = some a ∧ a ∈ cfg.VALID_ACTIONS ∧
      alist_get data "model_type" = some m ∧
      ver = (alist_get data "version").getD cfg.DEFAULT_VERSION ∧
      um = alist_get data "user_message") ∧
    (∀ e, validate_request_data cfg data = .error e → e ≠ "") :=
  ⟨validate_ok_iff cfg data,
   fun t a m ver um h => by
     obtain ⟨htt, _, htmem, hat, _, hamem, hmt, _, hver, hum, _⟩ :=
       validate_ok_shape cfg data t a m ver um h
     exact ⟨htt, htmem, hat, hamem, hmt, hver, hum⟩,
   fun e h => validate_error_nonempty cfg data e h⟩

/-! ## C10 -/

/-- C10: the validator distinguishes fields by truthiness, not key presence —
an empty-string team_tag fails with the same ValidationError as a missing
one, an empty-string action, model_type, or (for the use action)
user_message is likewise rejected, while an empty-string version is returned
verbatim and the configured default is substituted only when the version key
is entirely absent. -/
theorem validate_truthiness_semantics (cfg : Config) (data : List (String × String)) :
    (alist_get data "team_tag" = some "" →
      validate_request_data cfg data = .error (team_err_msg cfg)) ∧
    (alist_get data "action" = some "" →
      ∀ out, validate_request_data cfg data ≠ .ok out) ∧
    (alist_get data "model_type" = some "" →
      ∀ out, validate_request_data cfg data ≠ .ok out) ∧
    (alist_get data "action" = some "use" → alist_get data "user_message" = some "" →
      ∀ out, validate_request_data cfg data ≠ .ok out) ∧
    (∀ t a m ver um, alist_get data "version" = some "" →
      validate_request_data cfg data = .ok (t, a, m, ver, um) → ver = "") ∧
    (∀ t a m ver um, alist_get data "version" = none →
      validate_request_data cfg data = .ok (t, a, m, ver, um) →
        ver = cfg.DEFAULT_VERSION) := by
  refine ⟨?_, ?_, ?_, ?_, ?_, ?_⟩
  · intro h
    have hemp := alist_get_some_ne_nil h
    simp only [validate_request_data, hemp, Bool.false_eq_true, if_false, h]
    rw [if_pos (Or.inl trivial)]
  · intro h out hok
    obtain ⟨-, ⟨a, hat, hane, -⟩, -, -⟩ := (validate_ok_iff cfg data).mp ⟨out, hok⟩
    exact hane (Option.some.inj (hat.symm.trans h))
  · intro h out hok
    obtain ⟨-, -, ⟨m, hmt, hmne⟩, -⟩ := (validate_ok_iff cfg data).mp ⟨out, hok⟩
    exact hmne (Option.some.inj (hmt.symm.trans h))
  · intro hact hum out hok
    obtain ⟨-, -, -, huse⟩ := (validate_ok_iff cfg data).mp ⟨out, hok⟩
    obtain ⟨u, hu, hune⟩ := huse hact
    exact hune (Option.some.inj (hu.symm.trans hum))
  · intro t a m ver um hver hok
    obtain ⟨-, -, -, -, -, -, -, -, hveq, -, -⟩ :=
      validate_ok_shape cfg data t a m ver um hok
    rw [hver] at hveq
    exact hveq
  · intro t a m ver um hver hok
    obtain ⟨-, -, -, -, -, -, -, -, hveq, -, -⟩ :=
      validate_ok_shape cfg data t a m ver um hok
    rw [hver] at hveq
    exact hveq

/-! ## C1 -/

/-- The table holding the concrete profile the use run reads. -/
def use_db_ex : DB := [item_ex]

/-- A Converse-shaped structured reply whose first text segment is Hello. -/
def reply_ex : JValue :=
  .obj [("output", .obj [("message", .obj [("role", .str "assistant"),
    ("content", .arr [.obj [("text", .str "Hello")]])])])]

/-- A model-invocation collaborator that always returns reply_ex. -/
def invoke_model_ex : String → JValue → Except String JValue := fun _ _ => .ok reply_ex

/-- C1: evaluated at a concrete use invocation whose profile lookup succeeds,
handle_use_profile returns the entire parsed reply body as
conversation_response — not the first text segment, which here is Hello —
behaves identically with and without a caller system_prompt, and submits a
request body with no system entry. -/
theorem use_profile_ignores_system_prompt_and_returns_raw_reply :
    handle_use_profile use_db_ex "teama" "claude" "3.5" "hi" (some "Be terse")
      invoke_model_ex = .ok ⟨reply_ex, profile_arn_ex⟩ ∧
    handle_use_profile use_db_ex "teama" "claude" "3.5" "hi" none invoke_model_ex =
      handle_use_profile use_db_ex "teama" "claude" "3.5" "hi" (some "Be terse")
        invoke_model_ex ∧
    first_text_segment reply_ex = some (.str "Hello") ∧
    reply_ex ≠ .str "Hello" ∧
    jget (invoke_body "hi") "system" = none :=
  ⟨rfl, rfl, rfl, by intro h; simp [reply_ex] at h, rfl⟩

/-! ## C5 -/

/-- The concrete create request body. -/
def request_ex : List (String × String) :=
  [("team_tag", "teama"), ("action", "create"), ("model_type", "claude"),
    ("version", "3.5")]

/-- A deprovisioning collaborator that always succeeds. -/
def remote_delete_ex : String → Except String Unit := fun _ => .ok ()

/-- C5 counterexample: on a concrete successful create request the 200
response's data payload is the bare inferenceProfileArn string, not a
profile record. -/
theorem create_response_payload_is_bare_arn_string :
    (handle_team_profile cfg_ex acct_ex [] request_ex remote_create_ex remote_delete_ex
      invoke_model_ex).1 = .ok (.str profile_arn_ex) ∧
    (∀ p : Profile, Payload.str profile_arn_ex ≠ .profile p) :=
  ⟨rfl, fun _ h => nomatch h⟩

/-- C5 (amended): for every successful create request at the API surface, the
200 response's data payload is the remote resource identifier string alone —
the inferenceProfileArn field of the created profile — not the full record. -/
theorem create_success_payload (cfg : Config) (account_id : String) (db : DB)
    (data : List (String × String))
    (remote_create : String → String → Except String CreateInferenceProfileResponse)
    (remote_delete : String → Except String Unit)
    (invoke_model : String → JValue → Except String JValue)
    (team_tag model_type version : String) (user_message : Option String)
    (resp : CreateInferenceProfileResponse) (db2 : DB)
    (h1 : validate_request_data cfg data =
      .ok (team_tag, "create", model_type, version, user_message))
    (h2 : handle_create_profile cfg account_id db team_tag model_type version
      remote_create = (.ok resp, db2)) :
    handle_team_profile cfg account_id db data remote_create remote_delete invoke_model =
      (.ok (.str resp.inferenceProfileArn), db2) := by
  simp only [handle_team_profile, h1, h2, if_true]

/-- C5 witness: the amended statement discharged on the concrete create run. -/
theorem create_success_payload_witness :
    handle_team_profile cfg_ex acct_ex [] request_ex remote_create_ex remote_delete_ex
      invoke_model_ex = (.ok (.str profile_arn_ex), [item_ex]) :=
  create_success_payload cfg_ex acct_ex [] request_ex remote_create_ex remote_delete_ex
    invoke_model_ex "teama" "claude" "3.5" none ⟨profile_arn_ex, "ACTIVE"⟩
    [item_ex] (by rfl) (by rfl)
